import Mathlib

/-!
Shallow embedding of the ADB device-selection script (`1.py`).

The script enumerates Android debug-bridge devices, classifies each device id
by lexical form (mDNS wireless / plain wireless / USB), partitions records by
online status, lets the user pick an online device, and optionally tries to
reconnect offline devices.

Python strings are modelled as `List Char` (obtained from Lean `String` via
`.data`), so every operation reduces in the kernel.  External effects
(`subprocess.run`, `input`) are modelled by explicit outcome parameters: the
captured stdout/stderr/returncode of a command, whether a call raised, and the
line typed by the user.
-/

namespace AdbSelect

/-- Python ASCII whitespace, as recognised by `str.strip()` / `str.split()`.
(Python additionally treats some rarer control and Unicode characters as
whitespace; none occur in device listings.) -/
def pyIsSpace (c : Char) : Bool :=
  c = ' ' || c = '\t' || c = '\n' || c = '\r' || c = '\x0b' || c = '\x0c'

/-- Python `s.strip()`: drop leading and trailing whitespace. -/
def pyStrip (s : List Char) : List Char :=
  ((s.dropWhile pyIsSpace).reverse.dropWhile pyIsSpace).reverse

/-- Chunk splitter: cut the string at every character satisfying `p`,
keeping empty chunks (the behaviour of Python `s.split(sep)`).
`acc` is the current chunk, reversed. -/
def splitChunksAux (p : Char → Bool) : List Char → List Char → List (List Char)
  | [], acc => [acc.reverse]
  | c :: rest, acc =>
    if p c then acc.reverse :: splitChunksAux p rest []
    else splitChunksAux p rest (c :: acc)

/-- Python `s.split(sep)` for a one-character separator: empty chunks kept. -/
def splitOnChar (sep : Char) (s : List Char) : List (List Char) :=
  splitChunksAux (fun c => c = sep) s []

/-- Python `s.split()` with no argument: split on whitespace runs,
empty chunks dropped. -/
def pySplitWs (s : List Char) : List (List Char) :=
  (splitChunksAux pyIsSpace s []).filter (fun chunk => chunk ≠ [])

/-- Python substring test `pat in s`: `pat` occurs as a contiguous run,
checked by scanning every suffix of `s`. -/
def pyContains (pat : List Char) : List Char → Bool
  | [] => pat.isEmpty
  | c :: rest => pat.isPrefixOf (c :: rest) || pyContains pat rest

/-- Python `s.startswith(pre)`. -/
def pyStartsWith (pre s : List Char) : Bool := pre.isPrefixOf s

/-- A raw device record parsed from the listing output:
the Python dict `{'id': ..., 'status': ...}`. -/
structure DeviceRecord where
  id : String
  status : String
deriving DecidableEq, Repr, Inhabited

/-- The classification dict returned by `analyze_device`.  The Python code
returns one of three dict shapes; the `'type'` key becomes the constructor,
the remaining keys become fields in source order. -/
inductive DeviceInfo where
  | mdns_wireless (full_id base_id service_type protocol : String)
      (is_encrypted is_wireless : Bool) (status : String)
  | wireless (id : String) (is_wireless : Bool) (status : String)
  | usb (id : String) (is_wireless : Bool) (status : String)
deriving DecidableEq, Repr

/-- The `'type'` entry of the classification dict. -/
def DeviceInfo.typeName : DeviceInfo → String
  | .mdns_wireless .. => "mdns_wireless"
  | .wireless .. => "wireless"
  | .usb .. => "usb"

/-- `info.get('is_encrypted', False)`: only the mDNS dict carries the key,
all other shapes default to `False`. -/
def DeviceInfo.isEncrypted : DeviceInfo → Bool
  | .mdns_wireless _ _ _ _ e _ _ => e
  | _ => false

/-- `analyze_device` (1.py, lines 41-75): classify a record by the lexical
form of its id.  `parts[k] if len(parts) > k else ''` is rendered with
`List.getD` guarded by the same length test. -/
def analyze_device (r : DeviceRecord) : DeviceInfo :=
  if pyStartsWith "adb-".data r.id.data then
    let parts := splitOnChar '.' r.id.data
    DeviceInfo.mdns_wireless r.id
      (String.mk (parts.getD 0 []))
      (if parts.length > 1 then String.mk (parts.getD 1 []) else "")
      (if parts.length > 2 then String.mk (parts.getD 2 []) else "")
      (pyContains "_tls-connect".data r.id.data)
      true r.status
  else if pyContains ":".data r.id.data then
    DeviceInfo.wireless r.id true r.status
  else
    DeviceInfo.usb r.id false r.status

/-- Body of the parsing loop in `get_adb_devices_with_status`
(1.py, lines 25-32): strip the line, skip it when blank, split on whitespace,
and append a record when at least two tokens are present. -/
def parseLineStep (devices : List DeviceRecord) (rawLine : List Char) :
    List DeviceRecord :=
  let line := pyStrip rawLine
  if line ≠ [] then
    let parts := pySplitWs line
    if parts.length ≥ 2 then
      devices ++ [{ id := String.mk (parts.getD 0 [])
                    status := String.mk (parts.getD 1 []) }]
    else devices
  else devices

/-- The parsing part of `get_adb_devices_with_status` (1.py, lines 21-34):
`result.stdout.strip().split('\n')`, skip the header line, then run the
record-collecting loop. -/
def parseAdbOutput (stdout : String) : List DeviceRecord :=
  let lines := splitOnChar '\n' (pyStrip stdout.data)
  (lines.drop 1).foldl parseLineStep []

/-- Outcome of one `subprocess.run` invocation: either the process completed
(returncode, captured stdout, captured stderr) or the call raised
(timeout or any other execution failure caught by `except Exception`). -/
inductive RunOutcome where
  | completed (returncode : Int) (stdout : String) (stderr : String)
  | raised (msg : String)
deriving Repr

/-- `get_adb_devices_with_status` (1.py, lines 6-38), parameterised by the
outcome of the `adb devices` invocation: on a raised exception or a non-zero
returncode it prints and returns `[]`, otherwise it parses the stdout. -/
def get_adb_devices_with_status (res : RunOutcome) : List DeviceRecord :=
  match res with
  | .raised _ => []
  | .completed rc out _ => if rc ≠ 0 then [] else parseAdbOutput out

/-- `display_devices` (1.py, lines 78-118): the partitioning loop, appending
each record to the online list when its status is exactly `"device"` and to
the offline list otherwise.  Printing is a pure console effect and is not
modelled; the function returns the pair of partitions. -/
def display_devices (devices : List DeviceRecord) :
    List DeviceRecord × List DeviceRecord :=
  devices.foldl
    (fun (acc : List DeviceRecord × List DeviceRecord) d =>
      if d.status == "device" then (acc.1 ++ [d], acc.2)
      else (acc.1, acc.2 ++ [d]))
    ([], [])

/-- Value of the digit string, most significant first (`int()` on digits). -/
def digitsVal (ds : List Char) : Nat :=
  ds.foldl (fun n c => 10 * n + (c.toNat - '0'.toNat)) 0

/-- Python `int(s)` for a string: strip whitespace, optional sign, then a
non-empty run of decimal digits; `none` models `ValueError`.  (Python also
accepts underscore digit separators, irrelevant here.) -/
def pyIntParse (s : String) : Option Int :=
  let t := pyStrip s.data
  match t with
  | '-' :: ds =>
    if ds ≠ [] ∧ ds.all Char.isDigit then some (-(digitsVal ds : Int)) else none
  | '+' :: ds =>
    if ds ≠ [] ∧ ds.all Char.isDigit then some (digitsVal ds : Int) else none
  | ds =>
    if ds ≠ [] ∧ ds.all Char.isDigit then some (digitsVal ds : Int) else none

/-- `select_online_device` (1.py, lines 121-140), parameterised by the line
the user would type at the single prompt.  The second component records
whether `input()` was called.  `online_devices[choice - 1]` is total because
it is guarded by the bounds test. -/
def select_online_device (online : List DeviceRecord) (inputLine : String) :
    Option DeviceRecord × Bool :=
  match online with
  | [] => (none, false)
  | [d] => (some d, false)
  | _ =>
    match pyIntParse inputLine with
    | some choice =>
      if 1 ≤ choice ∧ choice ≤ (online.length : Int) then
        (some (online.getD (choice - 1).toNat default), true)
      else (none, true)
    | none => (none, true)

/-- One external adb command issued by `reconnect_offline_device`. -/
inductive AdbCmd where
  | disconnect (id : String)
  | connect (id : String)
deriving DecidableEq, Repr

/-- Environment for one `reconnect_offline_device` call: whether the
`adb disconnect` invocation raises, and the outcome of the `adb connect`
invocation (`.error` = the call raised, `.ok out` = captured stdout). -/
structure ReconnectEnv where
  disconnectRaises : Bool
  connectOutcome : Except String String

/-- `reconnect_offline_device` (1.py, lines 143-176), returning the list of
adb commands issued (in order) together with the boolean result.  The
disconnect command is issued first, unconditionally; the connect command only
for wireless-form ids (id contains `':'` or starts with `"adb-"`); success is
`'connected' in result.stdout` of the connect command.  A raised call counts
as issued (the process was started) and lands in the `except` branch, which
returns `False`. -/
def reconnect_offline_device (env : ReconnectEnv) (r : DeviceRecord) :
    List AdbCmd × Bool :=
  let id := r.id
  if env.disconnectRaises then ([AdbCmd.disconnect id], false)
  else if pyContains ":".data id.data || pyStartsWith "adb-".data id.data then
    match env.connectOutcome with
    | .error _ => ([AdbCmd.disconnect id, AdbCmd.connect id], false)
    | .ok out =>
      ([AdbCmd.disconnect id, AdbCmd.connect id],
       pyContains "connected".data out.data)
  else ([AdbCmd.disconnect id], false)

/-- Environment for the reconnect loop in `main`: `recon i` is the external
outcome of the `i`-th reconnection attempt, `run j` the outcome of the `j`-th
re-enumeration (`adb devices`) triggered by a successful attempt. -/
structure MainEnv where
  recon : Nat → ReconnectEnv
  run : Nat → RunOutcome

/-- An observable event of the reconnect loop in `main`: a reconnection
attempt on a record (with its boolean result), or a re-listing followed by
re-partitioning (recording the fresh device list and its online partition). -/
inductive MainEvent where
  | attempt (d : DeviceRecord) (ok : Bool)
  | relisted (devices : List DeviceRecord) (online : List DeviceRecord)
deriving DecidableEq, Repr

/-- The reconnect loop of `main` (1.py, lines 195-201): walk the offline
records in order; when `reconnect_offline_device` succeeds, re-run
`get_adb_devices_with_status` and `display_devices` and break as soon as the
fresh online partition is non-empty.  Returns the event trace and the final
online list (`[]` on fall-through, matching the pre-loop value in `main`).
`i` counts attempts, `j` counts re-enumerations. -/
def reconnectLoop (env : MainEnv) :
    List DeviceRecord → Nat → Nat → List MainEvent × List DeviceRecord
  | [], _, _ => ([], [])
  | d :: rest, i, j =>
    if (reconnect_offline_device (env.recon i) d).2 then
      let devs := get_adb_devices_with_status (env.run j)
      let onl := (display_devices devs).1
      if onl.isEmpty then
        let next := reconnectLoop env rest (i + 1) (j + 1)
        (MainEvent.attempt d true :: MainEvent.relisted devs onl :: next.1,
         next.2)
      else
        ([MainEvent.attempt d true, MainEvent.relisted devs onl], onl)
    else
      let next := reconnectLoop env rest (i + 1) j
      (MainEvent.attempt d false :: next.1, next.2)

/-- The reconnect loop as entered from `main`, with fresh counters. -/
def mainReconnectTrace (env : MainEnv) (offline : List DeviceRecord) :
    List MainEvent × List DeviceRecord :=
  reconnectLoop env offline 0 0

/-- Trace well-formedness for the reconnect loop: failed attempts are
followed by the rest of the trace with no re-listing in between; each
successful attempt is immediately followed by a re-listing event; and once a
re-listing shows a non-empty online partition the trace ends (no further
attempt of any kind). -/
def checkTrace : List MainEvent → Bool
  | [] => true
  | MainEvent.attempt _ false :: rest => checkTrace rest
  | MainEvent.attempt _ true :: MainEvent.relisted _ onl :: rest =>
    if onl.isEmpty then checkTrace rest else rest.isEmpty
  | _ => false

/-- The records on which reconnection was attempted, in trace order. -/
def attemptsOf (trace : List MainEvent) : List DeviceRecord :=
  trace.filterMap fun e =>
    match e with
    | MainEvent.attempt d _ => some d
    | _ => none

/-- Is the event a re-listing? -/
def isRelistedEv : MainEvent → Bool
  | MainEvent.relisted _ _ => true
  | _ => false

/-- The two-device listing output from the spec's example (section 8),
as captured stdout of `adb devices`. -/
def exampleListing : String :=
  "List of devices attached\n192.168.1.5:5555    device\nadb-ABC123._adb-tls-connect._tcp.   offline\n"

/-- `parts[k] if len(parts) > k else ''` agrees with looking segment `k` up
with `List.get?` and defaulting to the empty string. -/
theorem length_guard_getD (l : List (List Char)) (n : Nat) :
    (if l.length > n then String.mk (l.getD n []) else "") =
      String.mk ((l.get? n).getD []) := by
  by_cases h : n < l.length
  · rw [if_pos h, List.getD_eq_getElem?_getD, List.get?_eq_getElem?]
  · rw [if_neg h, List.get?_eq_none.mpr (Nat.le_of_not_lt h)]
    rfl

/-- Claim C1: `analyze_device` classifies every record into exactly one of
three variants by the lexical form of its id: ids starting with `"adb-"` are
`mdns_wireless` with `is_encrypted` true iff `"_tls-connect"` occurs in the
id; otherwise ids containing `':'` are `wireless`; all remaining ids are
`usb`. -/
theorem analyze_device_classification (r : DeviceRecord) :
    (pyStartsWith "adb-".data r.id.data = true →
      (analyze_device r).typeName = "mdns_wireless" ∧
      ((analyze_device r).isEncrypted = true ↔
        pyContains "_tls-connect".data r.id.data = true)) ∧
    (pyStartsWith "adb-".data r.id.data = false →
      pyContains ":".data r.id.data = true →
      (analyze_device r).typeName = "wireless") ∧
    (pyStartsWith "adb-".data r.id.data = false →
      pyContains ":".data r.id.data = false →
      (analyze_device r).typeName = "usb") := by
  refine ⟨fun h => ?_, fun h1 h2 => ?_, fun h1 h2 => ?_⟩
  · simp [analyze_device, h, DeviceInfo.typeName, DeviceInfo.isEncrypted]
  · simp [analyze_device, h1, h2, DeviceInfo.typeName]
  · simp [analyze_device, h1, h2, DeviceInfo.typeName]

/-- Witness for C1: one concrete id per branch of the classification. -/
theorem analyze_device_classification_witness :
    ((analyze_device ⟨"adb-A._adb-tls-connect._tcp.", "device"⟩).typeName =
        "mdns_wireless" ∧
      ((analyze_device ⟨"adb-A._adb-tls-connect._tcp.", "device"⟩).isEncrypted =
          true ↔
        pyContains "_tls-connect".data
          ("adb-A._adb-tls-connect._tcp." : String).data = true)) ∧
    (analyze_device ⟨"192.168.1.5:5555", "device"⟩).typeName = "wireless" ∧
    (analyze_device ⟨"SERIAL123", "device"⟩).typeName = "usb" :=
  ⟨(analyze_device_classification ⟨"adb-A._adb-tls-connect._tcp.", "device"⟩).1
      (by decide),
   (analyze_device_classification ⟨"192.168.1.5:5555", "device"⟩).2.1
      (by decide) (by decide),
   (analyze_device_classification ⟨"SERIAL123", "device"⟩).2.2
      (by decide) (by decide)⟩

/-- Claim C9: on ids starting with `"adb-"`, `analyze_device` splits the id
on `'.'` and takes the first segment as `base_id`, the second (if present,
else `""`) as `service_type`, and the third (if present, else `""`) as
`protocol`; the result is fully determined by the id and the copied status. -/
theorem analyze_device_mdns_fields (r : DeviceRecord)
    (h : pyStartsWith "adb-".data r.id.data = true) :
    analyze_device r =
      DeviceInfo.mdns_wireless r.id
        (String.mk (((splitOnChar '.' r.id.data).get? 0).getD []))
        (String.mk (((splitOnChar '.' r.id.data).get? 1).getD []))
        (String.mk (((splitOnChar '.' r.id.data).get? 2).getD []))
        (pyContains "_tls-connect".data r.id.data) true r.status := by
  simp only [analyze_device, h, if_true]
  simp only [length_guard_getD]
  simp only [List.getD_eq_getElem?_getD, List.get?_eq_getElem?]

/-- Witness for C9: the mDNS segments of the spec's example id. -/
theorem analyze_device_mdns_fields_witness :
    analyze_device ⟨"adb-ABC123._adb-tls-connect._tcp.", "offline"⟩ =
      DeviceInfo.mdns_wireless "adb-ABC123._adb-tls-connect._tcp."
        (String.mk (((splitOnChar '.'
            ("adb-ABC123._adb-tls-connect._tcp." : String).data).get? 0).getD []))
        (String.mk (((splitOnChar '.'
            ("adb-ABC123._adb-tls-connect._tcp." : String).data).get? 1).getD []))
        (String.mk (((splitOnChar '.'
            ("adb-ABC123._adb-tls-connect._tcp." : String).data).get? 2).getD []))
        (pyContains "_tls-connect".data
          ("adb-ABC123._adb-tls-connect._tcp." : String).data)
        true "offline" :=
  analyze_device_mdns_fields ⟨"adb-ABC123._adb-tls-connect._tcp.", "offline"⟩
    (by decide)

/-- Claim C7: `get_adb_devices_with_status` never propagates a failure of the
enumeration command: both a non-zero returncode and a raised execution
failure (timeout included) produce the empty list.  (The embedding is a total
function, so no exception can escape to the caller.) -/
theorem get_adb_devices_failure_empty :
    (∀ (rc : Int) (out err : String), rc ≠ 0 →
      get_adb_devices_with_status (RunOutcome.completed rc out err) = []) ∧
    (∀ msg : String, get_adb_devices_with_status (RunOutcome.raised msg) = []) :=
  ⟨fun rc out err h => by simp [get_adb_devices_with_status, h],
   fun _ => rfl⟩

/-- Witness for C7: returncode 1 and a raised timeout both yield `[]`. -/
theorem get_adb_devices_failure_empty_witness :
    get_adb_devices_with_status
        (RunOutcome.completed 1 "List of devices attached\nA device" "boom") = [] ∧
    get_adb_devices_with_status (RunOutcome.raised "timeout") = [] :=
  ⟨get_adb_devices_failure_empty.1 1 "List of devices attached\nA device" "boom"
      (by decide),
   get_adb_devices_failure_empty.2 "timeout"⟩

/-- The partitioning loop of `display_devices`, run from an arbitrary
accumulator, appends the status-filtered sublists. -/
theorem display_devices_foldl (l : List DeviceRecord)
    (acc : List DeviceRecord × List DeviceRecord) :
    l.foldl
        (fun (acc : List DeviceRecord × List DeviceRecord) d =>
          if d.status == "device" then (acc.1 ++ [d], acc.2)
          else (acc.1, acc.2 ++ [d]))
        acc =
      (acc.1 ++ l.filter (fun d => d.status == "device"),
       acc.2 ++ l.filter (fun d => !(d.status == "device"))) := by
  induction l generalizing acc with
  | nil => simp
  | cons d rest ih =>
    rw [List.foldl_cons, ih, List.filter_cons, List.filter_cons]
    by_cases h : d.status = "device"
    · simp [h]
    · simp [h]

/-- Claim C3: `display_devices` partitions its input into the records whose
status is exactly `"device"` (online) and all others (offline), preserving
relative order in each part; the parts are exhaustive and disjoint, and their
concatenation is a permutation of the input. -/
theorem display_devices_partition (devices : List DeviceRecord) :
    display_devices devices =
      (devices.filter (fun d => d.status == "device"),
       devices.filter (fun d => !(d.status == "device"))) ∧
    List.Perm
      ((display_devices devices).1 ++ (display_devices devices).2) devices ∧
    (∀ d : DeviceRecord,
      ¬(d ∈ (display_devices devices).1 ∧ d ∈ (display_devices devices).2)) := by
  have heq : display_devices devices =
      (devices.filter (fun d => d.status == "device"),
       devices.filter (fun d => !(d.status == "device"))) := by
    rw [display_devices, display_devices_foldl]
    simp
  refine ⟨heq, ?_, ?_⟩
  · rw [heq]
    exact List.filter_append_perm _ devices
  · intro d hd
    rw [heq] at hd
    obtain ⟨h1, h2⟩ := hd
    rw [List.mem_filter] at h1 h2
    rw [h1.2] at h2
    exact absurd h2.2 (by decide)

/-- Witness for C3 at a concrete mixed list, with the disjointness part
instantiated at its first record. -/
theorem display_devices_partition_witness :
    display_devices
        [⟨"A", "device"⟩, ⟨"B", "offline"⟩, ⟨"C", "device"⟩] =
      ([⟨"A", "device"⟩, ⟨"B", "offline"⟩, ⟨"C", "device"⟩].filter
          (fun d => d.status == "device"),
       [⟨"A", "device"⟩, ⟨"B", "offline"⟩, ⟨"C", "device"⟩].filter
          (fun d => !(d.status == "device"))) ∧
    List.Perm
      ((display_devices
          [⟨"A", "device"⟩, ⟨"B", "offline"⟩, ⟨"C", "device"⟩]).1 ++
        (display_devices
          [⟨"A", "device"⟩, ⟨"B", "offline"⟩, ⟨"C", "device"⟩]).2)
      [⟨"A", "device"⟩, ⟨"B", "offline"⟩, ⟨"C", "device"⟩] ∧
    ¬(⟨"A", "device"⟩ ∈
        (display_devices
          [⟨"A", "device"⟩, ⟨"B", "offline"⟩, ⟨"C", "device"⟩]).1 ∧
      (⟨"A", "device"⟩ : DeviceRecord) ∈
        (display_devices
          [⟨"A", "device"⟩, ⟨"B", "offline"⟩, ⟨"C", "device"⟩]).2) :=
  ⟨(display_devices_partition
      [⟨"A", "device"⟩, ⟨"B", "offline"⟩, ⟨"C", "device"⟩]).1,
   (display_devices_partition
      [⟨"A", "device"⟩, ⟨"B", "offline"⟩, ⟨"C", "device"⟩]).2.1,
   (display_devices_partition
      [⟨"A", "device"⟩, ⟨"B", "offline"⟩, ⟨"C", "device"⟩]).2.2 ⟨"A", "device"⟩⟩

/-- Declarative per-line parse, following the spec's words: split the
stripped line on whitespace and take a record from the first two tokens when
at least two are present, dropping the line otherwise. -/
def specParseLine (rawLine : List Char) : Option DeviceRecord :=
  match pySplitWs (pyStrip rawLine) with
  | a :: b :: _ => some { id := String.mk a, status := String.mk b }
  | _ => none

/-- One step of the parsing loop adds exactly the declaratively parsed
record, if any. -/
theorem parseLineStep_eq (devices : List DeviceRecord) (l : List Char) :
    parseLineStep devices l = devices ++ (specParseLine l).toList := by
  rw [parseLineStep, specParseLine]
  by_cases h : pyStrip l = []
  · rw [h]
    simp [pySplitWs, splitChunksAux]
  · cases hp : pySplitWs (pyStrip l) with
    | nil => simp [h, hp]
    | cons a tl =>
      cases tl with
      | nil => simp [h, hp]
      | cons b tl2 => simp [h, hp, List.getD]

/-- The parsing loop over any line list equals the declarative `filterMap`. -/
theorem foldl_parseLineStep (ls : List (List Char)) (acc : List DeviceRecord) :
    ls.foldl parseLineStep acc = acc ++ ls.filterMap specParseLine := by
  induction ls generalizing acc with
  | nil => simp
  | cons l rest ih =>
    rw [List.foldl_cons, parseLineStep_eq, ih, List.filterMap_cons]
    cases specParseLine l <;> simp

/-- Claim C8: `get_adb_devices_with_status` parses captured output by
stripping it, splitting into lines, dropping the (header) first line, and
collecting a record from the first two whitespace tokens of every line with
at least two tokens; blank and short lines contribute nothing. -/
theorem parseAdbOutput_declarative (out : String) :
    parseAdbOutput out =
      ((splitOnChar '\n' (pyStrip out.data)).drop 1).filterMap specParseLine := by
  rw [parseAdbOutput, foldl_parseLineStep]
  rfl

/-- Refutation for C2 as stated: the example's second id does not contain the
marker `"_tls-connect"` (its service segment is `"_adb-tls-connect"`, so the
character before `"tls-connect"` is `'-'`), hence the code computes
`is_encrypted = false`, not `true` as the claim states. -/
theorem example_listing_encrypted_counterexample :
    parseAdbOutput exampleListing =
      [⟨"192.168.1.5:5555", "device"⟩,
       ⟨"adb-ABC123._adb-tls-connect._tcp.", "offline"⟩] ∧
    ¬((analyze_device
        ⟨"adb-ABC123._adb-tls-connect._tcp.", "offline"⟩).isEncrypted = true) := by
  constructor
  · decide
  · decide

/-- Claim C2 (amended): the spec's example listing parses to exactly two
records; the first classifies as `wireless` and is online, the second as
`mdns_wireless` with `is_encrypted = false` and is offline. -/
theorem example_listing_classification :
    (parseAdbOutput exampleListing).length = 2 ∧
    parseAdbOutput exampleListing =
      [⟨"192.168.1.5:5555", "device"⟩,
       ⟨"adb-ABC123._adb-tls-connect._tcp.", "offline"⟩] ∧
    display_devices (parseAdbOutput exampleListing) =
      ([⟨"192.168.1.5:5555", "device"⟩],
       [⟨"adb-ABC123._adb-tls-connect._tcp.", "offline"⟩]) ∧
    (analyze_device ⟨"192.168.1.5:5555", "device"⟩).typeName = "wireless" ∧
    (analyze_device
        ⟨"adb-ABC123._adb-tls-connect._tcp.", "offline"⟩).typeName =
      "mdns_wireless" ∧
    (analyze_device
        ⟨"adb-ABC123._adb-tls-connect._tcp.", "offline"⟩).isEncrypted = false := by
  refine ⟨?_, ?_, ?_, ?_, ?_, ?_⟩ <;> decide

/-- Claim C4: `select_online_device` yields no selection on the empty list
and the sole element (without prompting) on a singleton; on lists of length
at least two it prompts once and yields the record at the typed 1-based index
when the input parses in bounds, and no selection (single attempt) on
non-numeric or out-of-range input; in particular on `[x, y]` input `"1"`
yields `x` and input `"3"` yields nothing. -/
theorem select_online_device_spec :
    (∀ inp : String, select_online_device [] inp = (none, false)) ∧
    (∀ (d : DeviceRecord) (inp : String),
      select_online_device [d] inp = (some d, false)) ∧
    (∀ (online : List DeviceRecord) (inp : String), 2 ≤ online.length →
      (select_online_device online inp).2 = true ∧
      (∀ c : Int, pyIntParse inp = some c → 1 ≤ c →
        c ≤ (online.length : Int) →
        (select_online_device online inp).1 = online.get? (c - 1).toNat) ∧
      (pyIntParse inp = none → (select_online_device online inp).1 = none) ∧
      (∀ c : Int, pyIntParse inp = some c →
        ¬(1 ≤ c ∧ c ≤ (online.length : Int)) →
        (select_online_device online inp).1 = none)) ∧
    (∀ x y : DeviceRecord,
      select_online_device [x, y] "1" = (some x, true) ∧
      select_online_device [x, y] "3" = (none, true)) := by
  refine ⟨fun _ => rfl, fun _ _ => rfl, fun online inp h => ?_, fun x y => ?_⟩
  · match online, h with
    | a :: b :: rest, _ =>
      refine ⟨?_, fun c hc h1 h2 => ?_, fun hn => ?_, fun c hc hno => ?_⟩
      · cases hp : pyIntParse inp with
        | none => simp [select_online_device, hp]
        | some c =>
          simp only [select_online_device, hp]
          split <;> rfl
      · have hlt : (c - 1).toNat < (a :: b :: rest).length := by
          simp only [List.length_cons] at h2 ⊢
          omega
        simp only [select_online_device, hc]
        rw [if_pos ⟨h1, h2⟩, List.getD_eq_getElem?_getD, List.get?_eq_getElem?,
          List.getElem?_eq_getElem hlt]
        rfl
      · simp [select_online_device, hn]
      · simp only [select_online_device, hc]
        rw [if_neg hno]
  · constructor
    · rfl
    · rfl

/-- Witness for C4: two concrete online records, inputs `"2"`, `"1"`, `"3"`
and a non-numeric line. -/
theorem select_online_device_spec_witness :
    (select_online_device [⟨"x", "device"⟩, ⟨"y", "device"⟩] "2").2 = true ∧
    (select_online_device [⟨"x", "device"⟩, ⟨"y", "device"⟩] "2").1 =
      [(⟨"x", "device"⟩ : DeviceRecord), ⟨"y", "device"⟩].get?
        (((2 : Int) - 1).toNat) ∧
    (select_online_device [⟨"x", "device"⟩, ⟨"y", "device"⟩] "abc").1 = none ∧
    (select_online_device [⟨"x", "device"⟩, ⟨"y", "device"⟩] "3").1 = none ∧
    select_online_device [⟨"x", "device"⟩, ⟨"y", "device"⟩] "1" =
      (some ⟨"x", "device"⟩, true) :=
  ⟨((select_online_device_spec.2.2.1 [⟨"x", "device"⟩, ⟨"y", "device"⟩] "2")
      (by decide)).1,
   ((select_online_device_spec.2.2.1 [⟨"x", "device"⟩, ⟨"y", "device"⟩] "2")
      (by decide)).2.1 2 (by decide) (by decide) (by decide),
   ((select_online_device_spec.2.2.1 [⟨"x", "device"⟩, ⟨"y", "device"⟩] "abc")
      (by decide)).2.2.1 (by decide),
   ((select_online_device_spec.2.2.1 [⟨"x", "device"⟩, ⟨"y", "device"⟩] "3")
      (by decide)).2.2.2 3 (by decide) (by decide),
   (select_online_device_spec.2.2.2 ⟨"x", "device"⟩ ⟨"y", "device"⟩).1⟩

/-- Claim C5: when no call raises, `reconnect_offline_device` succeeds iff
the id is wireless-form (contains `':'` or starts with `"adb-"`) and the
connect command's captured stdout contains `"connected"`; for USB-form ids no
connect command is issued and the result is failure, whatever the
environment. -/
theorem reconnect_offline_device_success_iff :
    (∀ (env : ReconnectEnv) (r : DeviceRecord) (out : String),
      env.disconnectRaises = false → env.connectOutcome = Except.ok out →
      ((reconnect_offline_device env r).2 = true ↔
        ((pyContains ":".data r.id.data = true ∨
            pyStartsWith "adb-".data r.id.data = true) ∧
          pyContains "connected".data out.data = true))) ∧
    (∀ (env : ReconnectEnv) (r : DeviceRecord),
      pyContains ":".data r.id.data = false →
      pyStartsWith "adb-".data r.id.data = false →
      AdbCmd.connect r.id ∉ (reconnect_offline_device env r).1 ∧
      (reconnect_offline_device env r).2 = false) := by
  constructor
  · intro env r out hd hc
    rw [reconnect_offline_device]
    rw [hd]
    by_cases hw : (pyContains ":".data r.id.data ||
        pyStartsWith "adb-".data r.id.data) = true
    · simp only [hw, if_true, if_false, Bool.false_eq_true, hc]
      rw [Bool.or_eq_true] at hw
      simp [hw]
    · simp only [Bool.not_eq_true] at hw
      rw [Bool.or_eq_false_iff] at hw
      simp [hw.1, hw.2]
  · intro env r h1 h2
    rw [reconnect_offline_device]
    cases hd : env.disconnectRaises
    · simp [h1, h2]
    · simp

/-- Witness for C5: a wireless id whose connect output contains
`"connected"`, and a USB serial id. -/
theorem reconnect_offline_device_success_iff_witness :
    ((reconnect_offline_device
        ⟨false, Except.ok "connected to 192.168.1.5:5555"⟩
        ⟨"192.168.1.5:5555", "offline"⟩).2 = true ↔
      ((pyContains ":".data ("192.168.1.5:5555" : String).data = true ∨
          pyStartsWith "adb-".data ("192.168.1.5:5555" : String).data = true) ∧
        pyContains "connected".data
          ("connected to 192.168.1.5:5555" : String).data = true)) ∧
    (AdbCmd.connect "SERIAL123" ∉
        (reconnect_offline_device ⟨false, Except.ok "x"⟩
          ⟨"SERIAL123", "offline"⟩).1 ∧
      (reconnect_offline_device ⟨false, Except.ok "x"⟩
          ⟨"SERIAL123", "offline"⟩).2 = false) :=
  ⟨reconnect_offline_device_success_iff.1
      ⟨false, Except.ok "connected to 192.168.1.5:5555"⟩
      ⟨"192.168.1.5:5555", "offline"⟩ "connected to 192.168.1.5:5555" rfl rfl,
   reconnect_offline_device_success_iff.2 ⟨false, Except.ok "x"⟩
      ⟨"SERIAL123", "offline"⟩ (by decide) (by decide)⟩

/-- Claim C10: `reconnect_offline_device` issues the disconnect command
first and unconditionally, exactly once, for every record and environment;
on a USB-form id the full command trace is that single disconnect and the
result is failure. -/
theorem reconnect_offline_device_disconnect_first :
    (∀ (env : ReconnectEnv) (r : DeviceRecord),
      (reconnect_offline_device env r).1.head? =
        some (AdbCmd.disconnect r.id)) ∧
    (∀ (env : ReconnectEnv) (r : DeviceRecord),
      ((reconnect_offline_device env r).1.count (AdbCmd.disconnect r.id)) = 1) ∧
    (∀ (env : ReconnectEnv) (r : DeviceRecord),
      pyContains ":".data r.id.data = false →
      pyStartsWith "adb-".data r.id.data = false →
      (reconnect_offline_device env r).1 = [AdbCmd.disconnect r.id] ∧
      (reconnect_offline_device env r).2 = false) := by
  refine ⟨fun env r => ?_, fun env r => ?_, fun env r h1 h2 => ?_⟩
  · rw [reconnect_offline_device]
    split
    · rfl
    · split
      · cases env.connectOutcome <;> rfl
      · rfl
  · rw [reconnect_offline_device]
    split
    · simp
    · split
      · cases env.connectOutcome <;> simp [List.count_cons]
      · simp
  · rw [reconnect_offline_device]
    cases env.disconnectRaises
    · simp [h1, h2]
    · simp

/-- Witness for C10: USB serial id under an environment whose disconnect
raises and one whose disconnect completes. -/
theorem reconnect_offline_device_disconnect_first_witness :
    (reconnect_offline_device ⟨true, Except.error "timeout"⟩
        ⟨"SERIAL123", "offline"⟩).1.head? =
      some (AdbCmd.disconnect "SERIAL123") ∧
    ((reconnect_offline_device ⟨false, Except.ok "ok"⟩
        ⟨"SERIAL123", "offline"⟩).1.count (AdbCmd.disconnect "SERIAL123")) = 1 ∧
    ((reconnect_offline_device ⟨false, Except.ok "ok"⟩
        ⟨"SERIAL123", "offline"⟩).1 = [AdbCmd.disconnect "SERIAL123"] ∧
      (reconnect_offline_device ⟨false, Except.ok "ok"⟩
        ⟨"SERIAL123", "offline"⟩).2 = false) :=
  ⟨reconnect_offline_device_disconnect_first.1 ⟨true, Except.error "timeout"⟩
      ⟨"SERIAL123", "offline"⟩,
   reconnect_offline_device_disconnect_first.2.1 ⟨false, Except.ok "ok"⟩
      ⟨"SERIAL123", "offline"⟩,
   reconnect_offline_device_disconnect_first.2.2 ⟨false, Except.ok "ok"⟩
      ⟨"SERIAL123", "offline"⟩ (by decide) (by decide)⟩

/-- Is the event a reconnection attempt? -/
def isAttemptEv : MainEvent → Bool
  | MainEvent.attempt _ _ => true
  | _ => false

/-- Every trace of the reconnect loop is well-formed (`checkTrace`) and
attempts exactly a prefix of the offline list, whatever the counters. -/
theorem reconnectLoop_trace_ok (env : MainEnv) :
    ∀ (offline : List DeviceRecord) (i j : Nat),
      checkTrace (reconnectLoop env offline i j).1 = true ∧
      ∃ n, attemptsOf (reconnectLoop env offline i j).1 = offline.take n := by
  intro offline
  induction offline with
  | nil => exact fun i j => ⟨rfl, 0, rfl⟩
  | cons d rest ih =>
    intro i j
    by_cases h : (reconnect_offline_device (env.recon i) d).2 = true
    · by_cases honl :
        ((display_devices (get_adb_devices_with_status (env.run j))).1).isEmpty =
          true
      · obtain ⟨hc, n, hn⟩ := ih (i + 1) (j + 1)
        refine ⟨?_, n + 1, ?_⟩
        · simp only [reconnectLoop, h, if_true, honl, checkTrace]
          exact hc
        · simp only [reconnectLoop, h, if_true, honl, attemptsOf,
            List.filterMap_cons, List.take_succ_cons]
          simp only [attemptsOf] at hn
          rw [hn]
      · refine ⟨?_, 1, ?_⟩
        · simp only [reconnectLoop, h, if_true, honl, checkTrace]
          simp
        · simp only [reconnectLoop, h, if_true, honl, attemptsOf,
            List.filterMap_cons, List.take_succ_cons, List.take_zero]
          simp
    · obtain ⟨hc, n, hn⟩ := ih (i + 1) j
      rw [Bool.not_eq_true] at h
      refine ⟨?_, n + 1, ?_⟩
      · simp only [reconnectLoop, h, Bool.false_eq_true, if_false, checkTrace]
        exact hc
      · simp only [reconnectLoop, h, Bool.false_eq_true, if_false, attemptsOf,
          List.filterMap_cons, List.take_succ_cons]
        simp only [attemptsOf] at hn
        rw [hn]

/-- Claim C6 (amended): the reconnect loop of `main` attempts the offline
devices in order (a prefix of the list); each successful attempt is
immediately followed by a re-listing and re-partitioning; failed attempts
trigger no re-listing; and as soon as a re-listing shows an online device the
loop stops — no further reconnection attempt (and no further event at all)
occurs. -/
theorem main_reconnect_loop_temporal (env : MainEnv)
    (offline : List DeviceRecord) :
    checkTrace (mainReconnectTrace env offline).1 = true ∧
    ∃ n, attemptsOf (mainReconnectTrace env offline).1 = offline.take n :=
  reconnectLoop_trace_ok env offline 0 0

/-- Environment in which the sole reconnection attempt fails: the connect
command completes but its stdout lacks `"connected"`.  The re-enumeration
outcome is irrelevant (never reached). -/
def envFailingAttempt : MainEnv :=
  { recon := fun _ =>
      { disconnectRaises := false, connectOutcome := Except.ok "" }
    run := fun _ => RunOutcome.raised "unused" }

/-- A wireless-form offline record for the C6 counterexample. -/
def offlineWirelessRec : DeviceRecord :=
  { id := "192.168.1.5:5555", status := "offline" }

/-- Refutation for C6 as stated: the loop does NOT re-list after every
reconnection attempt.  With one offline wireless device whose connect output
lacks `"connected"`, the trace holds one (failed) attempt and no re-listing
event at all, so attempts outnumber re-listings. -/
theorem main_reconnect_relist_counterexample :
    (mainReconnectTrace envFailingAttempt [offlineWirelessRec]).1 =
      [MainEvent.attempt offlineWirelessRec false] ∧
    ¬((mainReconnectTrace envFailingAttempt [offlineWirelessRec]).1.countP
          isAttemptEv ≤
        (mainReconnectTrace envFailingAttempt [offlineWirelessRec]).1.countP
          isRelistedEv) := by
  constructor
  · decide
  · decide

end AdbSelect
